import Mathlib

/-! Model of `src/main.py`: a streaming z-score anomaly detector built from a
fixed-capacity sliding window (`collections.deque` with `maxlen`), plus the
real-time driver loop that feeds a data stream through one detector and
reports every point.

Numbers: Python/numpy floats are idealised as exact numbers.  Finite values
are rationals; the IEEE specials `nan`, `inf` and `-inf` are explicit
constructors of `PyVal`, with the IEEE propagation and comparison rules for
the few operations the source uses.  `np.std` is the square root of the
population variance, which is irrational in general, so the two tests the
source performs on `std_dev` are embedded sqrt-free:

* `std_dev == 0` is embedded as `variance == 0` (for the values reachable
  here the variance is a mean of squares, hence `nan`, `+inf`, or a
  nonnegative finite value, and the square root of a nonnegative finite
  variance is zero exactly when the variance is);
* `abs((value - mean) / std_dev) > threshold` is embedded as
  `zscoreExceeds`, whose all-finite case uses the equivalent square
  comparison; theorem `zscoreExceeds_fin_iff` below proves that case equal
  to the real-number inequality `|diff| / Real.sqrt var > threshold`.
-/

/-- A Python/numpy float value: a finite rational or an IEEE special. -/
inductive PyVal where
  | fin (q : ℚ)
  | nan
  | pinf
  | ninf
deriving DecidableEq

/-- IEEE negation. -/
def PyVal.neg : PyVal → PyVal
  | fin q => fin (-q)
  | nan => nan
  | pinf => ninf
  | ninf => pinf

/-- IEEE addition: `nan` absorbs, opposite infinities give `nan`. -/
def PyVal.add : PyVal → PyVal → PyVal
  | nan, _ => nan
  | _, nan => nan
  | pinf, ninf => nan
  | ninf, pinf => nan
  | pinf, _ => pinf
  | _, pinf => pinf
  | ninf, _ => ninf
  | _, ninf => ninf
  | fin a, fin b => fin (a + b)

/-- IEEE subtraction. -/
def PyVal.sub (a b : PyVal) : PyVal := a.add b.neg

/-- IEEE squaring (only ever applied to deviations `x - mean`). -/
def PyVal.sq : PyVal → PyVal
  | fin q => fin (q ^ 2)
  | nan => nan
  | pinf => pinf
  | ninf => pinf

/-- Division by a (positive) element count, as in `np.mean`.  The model only
ever divides by the length of a nonempty window; `ℚ` totalises `q / 0 = 0`
for the unreachable empty case. -/
def PyVal.divNat : PyVal → ℕ → PyVal
  | fin q, n => fin (q / n)
  | nan, _ => nan
  | pinf, _ => pinf
  | ninf, _ => ninf

/-- Sum of the window contents (`np.mean` numerator). -/
def pySum (l : List PyVal) : PyVal := l.foldr PyVal.add (PyVal.fin 0)

/-- `np.mean` over the window contents. -/
def pyMean (l : List PyVal) : PyVal := (pySum l).divNat l.length

/-- Population variance over the window contents: the mean of the squared
deviations.  `np.std l` is its square root. -/
def pyVar (l : List PyVal) : PyVal :=
  pyMean (l.map (fun x => (x.sub (pyMean l)).sq))

/-- The test `abs((value - mean) / std_dev) > threshold` from line 95-96 of
the source, with `diff = value - mean` and `var = std_dev ** 2` (so
`std_dev = sqrt var`).  IEEE rules: any `nan` makes every comparison false;
`inf / sqrt q = inf` for finite `q > 0` (the variance reaching this point is
positive when finite, since `std_dev == 0` is tested first); `d / inf = 0`.
The all-finite case is the square comparison equivalent to
`|d| / sqrt q > t`, see `zscoreExceeds_fin_iff`. -/
def zscoreExceeds (diff var threshold : PyVal) : Bool :=
  match diff, var, threshold with
  | PyVal.nan, _, _ => false
  | _, PyVal.nan, _ => false
  | _, _, PyVal.nan => false
  | PyVal.pinf, PyVal.fin _, t => decide (t ≠ PyVal.pinf)
  | PyVal.ninf, PyVal.fin _, t => decide (t ≠ PyVal.pinf)
  | PyVal.pinf, PyVal.pinf, _ => false
  | PyVal.ninf, PyVal.pinf, _ => false
  | PyVal.fin _, PyVal.pinf, PyVal.pinf => false
  | PyVal.fin _, PyVal.pinf, PyVal.ninf => true
  | PyVal.fin _, PyVal.pinf, PyVal.fin t => decide (t < 0)
  | _, PyVal.ninf, _ => false
  | PyVal.fin _, PyVal.fin _, PyVal.pinf => false
  | PyVal.fin _, PyVal.fin _, PyVal.ninf => true
  | PyVal.fin d, PyVal.fin q, PyVal.fin t => decide (t < 0) || decide (t ^ 2 * q < d ^ 2)

/-- A Python object as far as the source's `isinstance` checks can tell:
an `int`, a `float` (numpy scalar types are identified with `float`), or
anything non-numeric. -/
inductive PyObj where
  | int (n : ℤ)
  | float (v : PyVal)
  | nonNumeric
deriving DecidableEq

/-- `isinstance(x, (int, float, np.number))`. -/
def PyObj.isNumeric : PyObj → Bool
  | int _ => true
  | float _ => true
  | nonNumeric => false

/-- A numeric value that is moreover finite (not `nan` or an infinity). -/
def PyObj.isFiniteNumeric : PyObj → Bool
  | int _ => true
  | float (PyVal.fin _) => true
  | _ => false

/-- The float value of a numeric object (unreachable for non-numeric ones,
which every caller filters out first). -/
def PyObj.toPyVal : PyObj → PyVal
  | int n => PyVal.fin n
  | float v => v
  | nonNumeric => PyVal.nan

/-- A finite numeric stream element. -/
def numInput (q : ℚ) : PyObj := PyObj.float (PyVal.fin q)

/-- `deque(maxlen).append`: append, evicting from the front whenever the
capacity is exceeded. -/
def dequePush {α : Type} (maxlen : ℕ) (w : List α) (v : α) : List α :=
  let w' := w ++ [v]
  if maxlen < w'.length then w'.drop (w'.length - maxlen) else w'

/-- State of `AnomalyDetector` (lines 49-66 of the source). -/
structure AnomalyDetector where
  threshold : PyVal
  window_size : ℕ
  data_window : List PyVal
  anomalies_count : ℕ
deriving DecidableEq

/-- `AnomalyDetector.__init__` (lines 49-66): validates the configuration,
raising `ValueError` for a non-numeric threshold or a non-positive-integer
window size, then starts with an empty window and a zero anomaly count. -/
def AnomalyDetector.init (threshold window_size : PyObj) :
    Except String AnomalyDetector :=
  if threshold.isNumeric = false then
    Except.error "Threshold must be a numeric value."
  else
    match window_size with
    | PyObj.int n =>
        if n ≤ 0 then Except.error "Window size must be a positive integer."
        else Except.ok
          { threshold := threshold.toPyVal
            window_size := n.toNat
            data_window := []
            anomalies_count := 0 }
    | _ => Except.error "Window size must be a positive integer."

/-- `AnomalyDetector.add_data_point` (lines 68-100).  Python raising is
modelled as returning the unchanged state together with `Except.error`
(the validity check precedes every mutation in the source). -/
def AnomalyDetector.add_data_point (d : AnomalyDetector) (value : PyObj) :
    AnomalyDetector × Except String Bool :=
  if value.isNumeric = false then
    (d, Except.error "Data point must be a numeric value.")
  else
    let v := value.toPyVal
    let w := dequePush d.window_size d.data_window v
    if w.length < d.window_size then
      ({ d with data_window := w }, Except.ok false)
    else
      let mean := pyMean w
      let var := pyVar w
      if var = PyVal.fin 0 then
        ({ d with data_window := w }, Except.ok false)
      else
        let is_anomaly := zscoreExceeds (v.sub mean) var d.threshold
        if is_anomaly then
          ({ d with data_window := w, anomalies_count := d.anomalies_count + 1 },
            Except.ok true)
        else
          ({ d with data_window := w }, Except.ok false)

/-- The runner's per-item fault handling (lines 139-143): a `ValueError`
from the detector is caught and the point is treated as non-anomalous. -/
def exceptBool : Except String Bool → Bool
  | Except.ok b => b
  | Except.error _ => false

/-- The trace of `add_data_point` calls made by a driver: feed the values
in order, collecting each call's classification outcome, with a detector
`ValueError` caught as `false` as in the runner's `except` branch
(lines 139-143). -/
def runDetector : AnomalyDetector → List PyObj → AnomalyDetector × List Bool
  | d, [] => (d, [])
  | d, v :: rest =>
    let step := d.add_data_point v
    let next := runDetector step.1 rest
    (next.1, exceptBool step.2 :: next.2)

/-- The `update` loop of `plot_data_stream_realtime` (lines 128-161), one
frame per index in order.  Each frame classifies its value with
`add_data_point` inside `try`, catching `ValueError` as
`is_anomaly = false` (lines 139-143) — but the CLI report that follows
(lines 145-149) formats the raw value with the float format code `.2f`
OUTSIDE the `try`.  An `int` and every `float`, `nan` and the infinities
included, format fine — exactly the numeric objects — while for a
non-numeric value that `format` call itself raises (`ValueError` for a
string, `TypeError` for other objects), so that frame's report is never
emitted and the exception escapes `update`, ending the traversal.  The
trailing `Except` records whether the loop completed or died at such a
frame, and the report list contains exactly the frames reported before
that point. -/
def runReport :
    AnomalyDetector → ℕ → List PyObj →
      AnomalyDetector × List (ℕ × PyObj × Bool) × Except String Unit
  | d, _, [] => (d, [], Except.ok ())
  | d, i, v :: rest =>
    let step := d.add_data_point v
    if v.isNumeric = false then
      (step.1, [], Except.error "Unknown format code f for object of type str")
    else
      let next := runReport step.1 (i + 1) rest
      (next.1, (i, v, exceptBool step.2) :: next.2.1, next.2.2)

/-- A detector fresh from a successful construction with finite numeric
threshold `t` and window size `W`. -/
def freshDetector (t : ℚ) (W : ℕ) : AnomalyDetector :=
  { threshold := PyVal.fin t, window_size := W, data_window := [], anomalies_count := 0 }

/-- Arithmetic mean of a rational window (the all-finite shadow of
`pyMean`). -/
def ratMean (l : List ℚ) : ℚ := l.sum / l.length

/-- Population variance of a rational window (the all-finite shadow of
`pyVar`); `np.std` is its square root. -/
def ratVar (l : List ℚ) : ℚ := ratMean (l.map (fun x => (x - ratMean l) ^ 2))

/-! ### Supporting lemmas -/

theorem dequePush_length {α : Type} (n : ℕ) (w : List α) (v : α) :
    (dequePush n w v).length = min (w.length + 1) n := by
  unfold dequePush
  simp only [List.length_append, List.length_cons, List.length_nil]
  split
  · rename_i h
    rw [List.length_drop]
    simp only [List.length_append, List.length_cons, List.length_nil]
    omega
  · rename_i h
    simp only [List.length_append, List.length_cons, List.length_nil]
    omega

theorem dequePush_map {α β : Type} (f : α → β) (n : ℕ) (w : List α) (v : α) :
    dequePush n (w.map f) (f v) = (dequePush n w v).map f := by
  unfold dequePush
  simp only [List.length_append, List.length_map, List.length_cons, List.length_nil]
  split
  · rw [List.map_drop, List.map_append]
    simp
  · rw [List.map_append]
    simp

theorem fin_sub (a b : ℚ) :
    (PyVal.fin a).sub (PyVal.fin b) = PyVal.fin (a - b) := by
  simp [PyVal.sub, PyVal.neg, PyVal.add, sub_eq_add_neg]

theorem pySum_map_fin (l : List ℚ) : pySum (l.map PyVal.fin) = PyVal.fin l.sum := by
  induction l with
  | nil => rfl
  | cons x xs ih =>
    show (PyVal.fin x).add (pySum (xs.map PyVal.fin)) = PyVal.fin (x :: xs).sum
    rw [ih]
    simp [PyVal.add]

theorem pyMean_map_fin (l : List ℚ) : pyMean (l.map PyVal.fin) = PyVal.fin (ratMean l) := by
  simp [pyMean, pySum_map_fin, PyVal.divNat, ratMean]

theorem pyVar_map_fin (l : List ℚ) : pyVar (l.map PyVal.fin) = PyVal.fin (ratVar l) := by
  unfold pyVar ratVar
  rw [pyMean_map_fin]
  have hmaps : (l.map PyVal.fin).map (fun x => (x.sub (PyVal.fin (ratMean l))).sq)
      = (l.map (fun x => (x - ratMean l) ^ 2)).map PyVal.fin := by
    simp only [List.map_map]
    apply List.map_congr_left
    intro x _
    simp [Function.comp, fin_sub, PyVal.sq]
  rw [hmaps, pyMean_map_fin]

theorem ratVar_nonneg (l : List ℚ) : 0 ≤ ratVar l := by
  unfold ratVar ratMean
  apply div_nonneg
  · apply List.sum_nonneg
    intro x hx
    simp only [List.mem_map] at hx
    obtain ⟨y, -, rfl⟩ := hx
    positivity
  · positivity

/-- Adequacy of the sqrt-free embedding of the anomaly test: in the
all-finite case with positive variance `q`, `zscoreExceeds` holds exactly
when the real z-score magnitude `|d| / sqrt q` strictly exceeds the
threshold. -/
theorem zscoreExceeds_fin_iff (d q t : ℚ) (hq : 0 < q) :
    zscoreExceeds (PyVal.fin d) (PyVal.fin q) (PyVal.fin t) = true ↔
      (t : ℝ) < |(d : ℝ)| / Real.sqrt (q : ℝ) := by
  have hq' : (0 : ℝ) < (q : ℝ) := by exact_mod_cast hq
  have hs : 0 < Real.sqrt (q : ℝ) := Real.sqrt_pos.mpr hq'
  have hs2 : Real.sqrt (q : ℝ) ^ 2 = (q : ℝ) := Real.sq_sqrt hq'.le
  rw [lt_div_iff₀ hs]
  show (decide (t < 0) || decide (t ^ 2 * q < d ^ 2)) = true ↔ _
  simp only [Bool.or_eq_true, decide_eq_true_eq]
  constructor
  · rintro (h | h)
    · have ht : (t : ℝ) < 0 := by exact_mod_cast h
      calc (t : ℝ) * Real.sqrt (q : ℝ) < 0 := mul_neg_of_neg_of_pos ht hs
        _ ≤ |(d : ℝ)| := abs_nonneg _
    · rcases lt_or_le t 0 with ht | ht
      · have ht' : (t : ℝ) < 0 := by exact_mod_cast ht
        calc (t : ℝ) * Real.sqrt (q : ℝ) < 0 := mul_neg_of_neg_of_pos ht' hs
          _ ≤ |(d : ℝ)| := abs_nonneg _
      · have ht' : (0 : ℝ) ≤ (t : ℝ) := by exact_mod_cast ht
        have h' : (t : ℝ) ^ 2 * (q : ℝ) < (d : ℝ) ^ 2 := by exact_mod_cast h
        apply lt_of_pow_lt_pow_left₀ 2 (abs_nonneg _)
        calc ((t : ℝ) * Real.sqrt (q : ℝ)) ^ 2
            = (t : ℝ) ^ 2 * (q : ℝ) := by rw [mul_pow, hs2]
          _ < (d : ℝ) ^ 2 := h'
          _ = |(d : ℝ)| ^ 2 := (sq_abs _).symm
  · intro h
    rcases lt_or_le t 0 with ht | ht
    · exact Or.inl ht
    · right
      have ht' : (0 : ℝ) ≤ (t : ℝ) := by exact_mod_cast ht
      have hlt : ((t : ℝ) * Real.sqrt (q : ℝ)) ^ 2 < |(d : ℝ)| ^ 2 :=
        pow_lt_pow_left₀ h (mul_nonneg ht' hs.le) two_ne_zero
      have : (t : ℝ) ^ 2 * (q : ℝ) < (d : ℝ) ^ 2 := by
        calc (t : ℝ) ^ 2 * (q : ℝ) = ((t : ℝ) * Real.sqrt (q : ℝ)) ^ 2 := by
              rw [mul_pow, hs2]
          _ < |(d : ℝ)| ^ 2 := hlt
          _ = (d : ℝ) ^ 2 := sq_abs _
      exact_mod_cast this

/-- The boolean classification decision `add_data_point` makes once the
input has passed the numeric check and been appended. -/
def classifyBool (d : AnomalyDetector) (v : PyVal) : Bool :=
  let w := dequePush d.window_size d.data_window v
  if w.length < d.window_size then false
  else if pyVar w = PyVal.fin 0 then false
  else zscoreExceeds (v.sub (pyMean w)) (pyVar w) d.threshold

theorem add_data_point_err (d : AnomalyDetector) (v : PyObj)
    (h : v.isNumeric = false) :
    d.add_data_point v = (d, Except.error "Data point must be a numeric value.") := by
  unfold AnomalyDetector.add_data_point
  rw [h]
  simp

theorem add_data_point_ok (d : AnomalyDetector) (v : PyObj)
    (h : v.isNumeric = true) :
    d.add_data_point v =
      ({ d with
          data_window := dequePush d.window_size d.data_window v.toPyVal,
          anomalies_count := d.anomalies_count + cond (classifyBool d v.toPyVal) 1 0 },
        Except.ok (classifyBool d v.toPyVal)) := by
  unfold AnomalyDetector.add_data_point classifyBool
  rw [h]
  simp only [Bool.true_eq_false, if_false]
  split
  · simp
  · split
    · simp
    · split
      · simp_all
      · simp_all

theorem runDetector_cons (d : AnomalyDetector) (v : PyObj) (rest : List PyObj) :
    runDetector d (v :: rest) =
      ((runDetector (d.add_data_point v).1 rest).1,
        exceptBool (d.add_data_point v).2 :: (runDetector (d.add_data_point v).1 rest).2) := rfl

theorem add_data_point_count (d : AnomalyDetector) (v : PyObj) :
    (d.add_data_point v).1.anomalies_count
      = d.anomalies_count + cond (exceptBool (d.add_data_point v).2) 1 0 := by
  cases hn : v.isNumeric
  · rw [add_data_point_err d v hn]
    simp [exceptBool]
  · rw [add_data_point_ok d v hn]
    cases classifyBool d v.toPyVal <;> simp [exceptBool]

theorem add_data_point_window (d : AnomalyDetector) (v : PyObj) :
    (d.add_data_point v).1.window_size = d.window_size
    ∧ (d.add_data_point v).1.threshold = d.threshold
    ∧ (d.add_data_point v).1.data_window
        = (if v.isNumeric then dequePush d.window_size d.data_window v.toPyVal
           else d.data_window) := by
  cases hn : v.isNumeric
  · rw [add_data_point_err d v hn]
    simp
  · rw [add_data_point_ok d v hn]
    simp

theorem runDetector_count (vals : List PyObj) : ∀ d : AnomalyDetector,
    (runDetector d vals).1.anomalies_count
      = d.anomalies_count + ((runDetector d vals).2).count true := by
  induction vals with
  | nil => intro d; simp [runDetector]
  | cons v rest ih =>
    intro d
    rw [runDetector_cons]
    simp only [List.count_cons]
    rw [ih, add_data_point_count]
    cases exceptBool (d.add_data_point v).2 <;> (simp; try omega)

theorem runDetector_warmup (qs : List ℚ) : ∀ (d : AnomalyDetector) (i : ℕ),
    i < qs.length → d.data_window.length + i + 1 < d.window_size →
    ((runDetector d (qs.map numInput)).2).getD i true = false := by
  induction qs with
  | nil =>
    intro d i hi _
    simp at hi
  | cons q rest ih =>
    intro d i hi hlen
    have hnum : (numInput q).isNumeric = true := rfl
    have hadd := add_data_point_ok d (numInput q) hnum
    have hwlen : (dequePush d.window_size d.data_window (numInput q).toPyVal).length
        = d.data_window.length + 1 := by
      rw [dequePush_length]
      omega
    cases i with
    | zero =>
      have hw : (dequePush d.window_size d.data_window (numInput q).toPyVal).length
          < d.window_size := by omega
      have hb : classifyBool d (numInput q).toPyVal = false := by
        unfold classifyBool
        rw [if_pos hw]
      simp only [List.map_cons, runDetector_cons, hadd, exceptBool, hb, List.getD_cons_zero]
    | succ j =>
      simp only [List.map_cons, runDetector_cons, List.getD_cons_succ]
      apply ih
      · simpa using hi
      · rw [hadd]
        simp only [hwlen]
        omega

/-! ### Claims -/

/-- Claim C1: for a detector whose window is full after the new value is
appended and whose window standard deviation is nonzero, `add_data_point`
classifies the value as anomalous exactly when
`abs((value - mean) / std_dev) > threshold`, where mean and standard
deviation are the population statistics of the window that already contains
the new value itself (self-inclusive scoring), with strict inequality: a
z-score exactly at the threshold is classified `false`. -/
theorem claim1_self_inclusive_zscore (t : ℚ) (W cnt : ℕ) (win : List ℚ) (v : ℚ)
    (hfull : (dequePush W win v).length = W)
    (hvar : ratVar (dequePush W win v) ≠ 0) :
    ((AnomalyDetector.add_data_point ⟨PyVal.fin t, W, win.map PyVal.fin, cnt⟩
          (numInput v)).2 = Except.ok true
      ↔ (t : ℝ) < |(v : ℝ) - (ratMean (dequePush W win v) : ℝ)|
          / Real.sqrt ((ratVar (dequePush W win v) : ℝ)))
    ∧ ((AnomalyDetector.add_data_point ⟨PyVal.fin t, W, win.map PyVal.fin, cnt⟩
          (numInput v)).2 = Except.ok false
      ↔ ¬ ((t : ℝ) < |(v : ℝ) - (ratMean (dequePush W win v) : ℝ)|
          / Real.sqrt ((ratVar (dequePush W win v) : ℝ)))) := by
  have hq : 0 < ratVar (dequePush W win v) :=
    lt_of_le_of_ne (ratVar_nonneg _) (Ne.symm hvar)
  have hnum : (numInput v).isNumeric = true := rfl
  have htov : (numInput v).toPyVal = PyVal.fin v := rfl
  have hb : classifyBool ⟨PyVal.fin t, W, win.map PyVal.fin, cnt⟩ (PyVal.fin v)
      = zscoreExceeds (PyVal.fin (v - ratMean (dequePush W win v)))
          (PyVal.fin (ratVar (dequePush W win v))) (PyVal.fin t) := by
    unfold classifyBool
    rw [show (⟨PyVal.fin t, W, win.map PyVal.fin, cnt⟩ : AnomalyDetector).data_window
        = win.map PyVal.fin from rfl]
    rw [show (⟨PyVal.fin t, W, win.map PyVal.fin, cnt⟩ : AnomalyDetector).window_size
        = W from rfl]
    rw [dequePush_map]
    simp only [List.length_map, hfull, lt_irrefl, if_false]
    rw [pyVar_map_fin]
    rw [if_neg (by simpa using hvar)]
    rw [pyMean_map_fin, fin_sub]
  have hcast : ((v - ratMean (dequePush W win v) : ℚ) : ℝ)
      = (v : ℝ) - (ratMean (dequePush W win v) : ℝ) := by push_cast; ring
  have hiff : zscoreExceeds (PyVal.fin (v - ratMean (dequePush W win v)))
        (PyVal.fin (ratVar (dequePush W win v))) (PyVal.fin t) = true
      ↔ (t : ℝ) < |(v : ℝ) - (ratMean (dequePush W win v) : ℝ)|
          / Real.sqrt ((ratVar (dequePush W win v) : ℝ)) := by
    rw [zscoreExceeds_fin_iff _ _ _ hq, hcast]
  rw [add_data_point_ok _ _ hnum, htov, hb]
  simp only [Except.ok.injEq]
  refine ⟨hiff, ?_⟩
  rw [Bool.eq_false_iff]
  exact not_congr hiff

unseal Rat.mul Rat.add Rat.sub Rat.inv in
theorem claim1_witness :
    (dequePush 2 [(0 : ℚ)] 2).length = 2
    ∧ ratVar (dequePush 2 [(0 : ℚ)] 2) ≠ 0
    ∧ (((AnomalyDetector.add_data_point ⟨PyVal.fin 3, 2, [(0 : ℚ)].map PyVal.fin, 0⟩
            (numInput 2)).2 = Except.ok true
        ↔ ((3 : ℚ) : ℝ) < |((2 : ℚ) : ℝ) - (ratMean (dequePush 2 [(0 : ℚ)] 2) : ℝ)|
            / Real.sqrt ((ratVar (dequePush 2 [(0 : ℚ)] 2) : ℝ)))
      ∧ ((AnomalyDetector.add_data_point ⟨PyVal.fin 3, 2, [(0 : ℚ)].map PyVal.fin, 0⟩
            (numInput 2)).2 = Except.ok false
        ↔ ¬ (((3 : ℚ) : ℝ) < |((2 : ℚ) : ℝ) - (ratMean (dequePush 2 [(0 : ℚ)] 2) : ℝ)|
            / Real.sqrt ((ratVar (dequePush 2 [(0 : ℚ)] 2) : ℝ))))) :=
  ⟨by decide, by decide, claim1_self_inclusive_zscore 3 2 0 [0] 2 (by decide) (by decide)⟩

/-- Claim C2: on a fresh detector with window size `W`, each of the first
`W - 1` classifications is `false` unconditionally, whatever the (finite
numeric) values are: no anomaly is declared while the window is not yet
full. -/
theorem claim2_warmup_all_false (t : ℚ) (W : ℕ) (vals : List ℚ) (i : ℕ)
    (hi : i < vals.length) (hiW : i + 1 < W) :
    ((runDetector (freshDetector t W) (vals.map numInput)).2).getD i true = false := by
  apply runDetector_warmup vals (freshDetector t W) i hi
  show (freshDetector t W).data_window.length + i + 1 < (freshDetector t W).window_size
  simp only [freshDetector, List.length_nil]
  omega

theorem claim2_witness :
    2 < ([1000, 2000, 3000, 4000] : List ℚ).length
    ∧ 2 + 1 < 5
    ∧ ((runDetector (freshDetector 1 5) (([1000, 2000, 3000, 4000] : List ℚ).map numInput)).2).getD 2 true
        = false :=
  ⟨by decide, by decide, claim2_warmup_all_false 1 5 [1000, 2000, 3000, 4000] 2 (by decide) (by decide)⟩

/-- Claim C3: when the window (after appending the new value) is full and
its population variance is exactly zero, the value is classified `false` —
a defined non-anomalous outcome, not an error — in particular whenever the
most recent `W` observations are all identical. -/
theorem claim3_zero_variance_false (t : ℚ) (W cnt : ℕ) (win : List ℚ) (v : ℚ)
    (hfull : (dequePush W win v).length = W)
    (hvar : ratVar (dequePush W win v) = 0) :
    (AnomalyDetector.add_data_point ⟨PyVal.fin t, W, win.map PyVal.fin, cnt⟩
        (numInput v)).2 = Except.ok false := by
  have hnum : (numInput v).isNumeric = true := rfl
  have htov : (numInput v).toPyVal = PyVal.fin v := rfl
  have hb : classifyBool ⟨PyVal.fin t, W, win.map PyVal.fin, cnt⟩ (PyVal.fin v) = false := by
    unfold classifyBool
    rw [show (⟨PyVal.fin t, W, win.map PyVal.fin, cnt⟩ : AnomalyDetector).data_window
        = win.map PyVal.fin from rfl]
    rw [show (⟨PyVal.fin t, W, win.map PyVal.fin, cnt⟩ : AnomalyDetector).window_size
        = W from rfl]
    rw [dequePush_map]
    simp only [List.length_map, hfull, lt_irrefl, if_false]
    rw [pyVar_map_fin, hvar]
    simp
  rw [add_data_point_ok _ _ hnum, htov, hb]

unseal Rat.mul Rat.add Rat.sub Rat.inv in
theorem claim3_witness :
    (dequePush 4 [(5 : ℚ), 5, 5] 5).length = 4
    ∧ ratVar (dequePush 4 [(5 : ℚ), 5, 5] 5) = 0
    ∧ (AnomalyDetector.add_data_point ⟨PyVal.fin 2, 4, [(5 : ℚ), 5, 5].map PyVal.fin, 0⟩
        (numInput 5)).2 = Except.ok false :=
  ⟨by decide, by decide, claim3_zero_variance_false 2 4 0 [5, 5, 5] 5 (by decide) (by decide)⟩

/-- Claim C4: starting from a fresh detector, `anomalies_count` after any
sequence of calls equals the number of `true` classifications among them
(it starts at 0 and is bumped by exactly 1 on each `true` result), and from
any state the count never decreases across a run. -/
theorem claim4_count_matches_true_results (t : ℚ) (W : ℕ) (vals : List PyObj)
    (d : AnomalyDetector) :
    (runDetector (freshDetector t W) vals).1.anomalies_count
        = ((runDetector (freshDetector t W) vals).2).count true
    ∧ d.anomalies_count ≤ (runDetector d vals).1.anomalies_count := by
  constructor
  · rw [runDetector_count]
    simp [freshDetector]
  · rw [runDetector_count]
    exact Nat.le_add_right _ _

unseal Rat.mul Rat.add Rat.sub Rat.inv in
/-- Claim C5 counterexample: with `window_size = 4`, `threshold = 2.0` and
the stream `[1,1,1,1,1,1,1,1,100]`, the final value 100 is classified
`false` (its self-inclusive z-score is `sqrt 3 < 2`) and the run ends with
`anomalies_count = 0`, contradicting the claimed `true` / count 1. -/
theorem claim5_counterexample :
    ((runDetector (freshDetector 2 4)
        (([1, 1, 1, 1, 1, 1, 1, 1, 100] : List ℚ).map numInput)).2).getD 8 true = false
    ∧ (runDetector (freshDetector 2 4)
        (([1, 1, 1, 1, 1, 1, 1, 1, 100] : List ℚ).map numInput)).1.anomalies_count = 0 := by
  decide

unseal Rat.mul Rat.add Rat.sub Rat.inv in
/-- Claim C5 (amended): with `window_size = 4`, `threshold = 2.0` and the
stream `[1,1,1,1,1,1,1,1,100]`, the first three values classify `false`
(warm-up), the interior constant stretch classifies `false` (zero
variance), and the final value 100 ALSO classifies `false`, because the
newly appended point takes part in its own statistics and the largest
self-inclusive z-score a single outlier can reach in a window of 4 is
`sqrt 3 ≈ 1.73 < 2.0`; the run ends with `anomalies_count = 0`. -/
theorem claim5_amended_all_false :
    (runDetector (freshDetector 2 4)
        (([1, 1, 1, 1, 1, 1, 1, 1, 100] : List ℚ).map numInput)).2
      = List.replicate 9 false
    ∧ (runDetector (freshDetector 2 4)
        (([1, 1, 1, 1, 1, 1, 1, 1, 100] : List ℚ).map numInput)).1.anomalies_count = 0 := by
  decide

theorem init_not_numeric (th ws : PyObj) (h : th.isNumeric = false) :
    AnomalyDetector.init th ws = Except.error "Threshold must be a numeric value." := by
  unfold AnomalyDetector.init
  rw [h]
  simp

theorem init_int (th : PyObj) (n : ℤ) (h : th.isNumeric = true) :
    AnomalyDetector.init th (PyObj.int n) =
      if n ≤ 0 then Except.error "Window size must be a positive integer."
      else Except.ok ⟨th.toPyVal, n.toNat, [], 0⟩ := by
  unfold AnomalyDetector.init
  rw [h]
  simp

theorem init_float (th : PyObj) (v : PyVal) (h : th.isNumeric = true) :
    AnomalyDetector.init th (PyObj.float v)
      = Except.error "Window size must be a positive integer." := by
  unfold AnomalyDetector.init
  rw [h]
  simp

theorem init_nonNumeric_ws (th : PyObj) (h : th.isNumeric = true) :
    AnomalyDetector.init th PyObj.nonNumeric
      = Except.error "Window size must be a positive integer." := by
  unfold AnomalyDetector.init
  rw [h]
  simp

/-- Claim C6: construction fails with `ValueError` exactly when the
threshold is not numeric or the window size is not a positive integer
(never silently defaulted); otherwise it succeeds with the given threshold,
an empty window of the given capacity, and `anomalies_count = 0`. -/
theorem claim6_construction_contract (th ws : PyObj) :
    ((∃ e, AnomalyDetector.init th ws = Except.error e)
      ↔ (th.isNumeric = false ∨ ¬ ∃ n : ℤ, ws = PyObj.int n ∧ 0 < n))
    ∧ ∀ d, AnomalyDetector.init th ws = Except.ok d →
        d.threshold = th.toPyVal ∧ d.data_window = [] ∧ d.anomalies_count = 0
          ∧ ∃ n : ℤ, ws = PyObj.int n ∧ 0 < n ∧ d.window_size = n.toNat := by
  cases hth : th.isNumeric
  · rw [init_not_numeric th ws hth]
    constructor
    · simp
    · intro d hd
      exact absurd hd (by simp)
  · cases ws with
    | int n =>
      rw [init_int th n hth]
      by_cases hn : n ≤ 0
      · rw [if_pos hn]
        constructor
        · constructor
          · intro _
            right
            rintro ⟨n', hn', hpos⟩
            rw [PyObj.int.injEq] at hn'
            omega
          · intro _
            exact ⟨_, rfl⟩
        · intro d hd
          exact absurd hd (by simp)
      · rw [if_neg hn]
        constructor
        · constructor
          · rintro ⟨e, he⟩
            exact absurd he (by simp)
          · rintro (h | h)
            · exact absurd h (by simp)
            · exact absurd ⟨n, rfl, by omega⟩ h
        · intro d hd
          rw [Except.ok.injEq] at hd
          subst hd
          exact ⟨rfl, rfl, rfl, n, rfl, by omega, rfl⟩
    | float v =>
      rw [init_float th v hth]
      constructor
      · constructor
        · intro _
          right
          rintro ⟨n', hn', -⟩
          exact absurd hn' (by simp)
        · intro _
          exact ⟨_, rfl⟩
      · intro d hd
        exact absurd hd (by simp)
    | nonNumeric =>
      rw [init_nonNumeric_ws th hth]
      constructor
      · constructor
        · intro _
          right
          rintro ⟨n', hn', -⟩
          exact absurd hn' (by simp)
        · intro _
          exact ⟨_, rfl⟩
      · intro d hd
        exact absurd hd (by simp)

theorem claim6_witness :
    ((⟨PyVal.fin 3, 4, [], 0⟩ : AnomalyDetector).threshold
        = (PyObj.float (PyVal.fin 3)).toPyVal)
    ∧ (⟨PyVal.fin 3, 4, [], 0⟩ : AnomalyDetector).data_window = []
    ∧ (⟨PyVal.fin 3, 4, [], 0⟩ : AnomalyDetector).anomalies_count = 0
    ∧ ∃ n : ℤ, (PyObj.int 4 : PyObj) = PyObj.int n ∧ 0 < n
        ∧ (⟨PyVal.fin 3, 4, [], 0⟩ : AnomalyDetector).window_size = n.toNat :=
  (claim6_construction_contract (PyObj.float (PyVal.fin 3)) (PyObj.int 4)).2
    ⟨PyVal.fin 3, 4, [], 0⟩ (by rfl)

/-- Claim C7 counterexample: `nan` is numeric but not finite, yet
`add_data_point` accepts it without error (the source only checks
`isinstance`, not finiteness), so "fails iff the value is not a finite
numeric value" is false on the code. -/
theorem claim7_counterexample :
    PyObj.isFiniteNumeric (PyObj.float PyVal.nan) = false
    ∧ ((freshDetector 3 2).add_data_point (PyObj.float PyVal.nan)).2 = Except.ok false :=
  ⟨rfl, rfl⟩

/-- Claim C7 (amended): `add_data_point` fails with `ValueError` exactly
when the value is not numeric — non-finite numeric values such as `nan`
and the infinities are accepted without error — and on every numeric input
it returns a boolean without raising. -/
theorem claim7_invalid_input_iff_not_numeric (d : AnomalyDetector) (v : PyObj) :
    ((∃ e, (d.add_data_point v).2 = Except.error e) ↔ v.isNumeric = false)
    ∧ (v.isNumeric = true → ∃ b, (d.add_data_point v).2 = Except.ok b) := by
  cases hn : v.isNumeric
  · rw [add_data_point_err d v hn]
    constructor
    · simp
    · intro h
      exact absurd h (by simp)
  · rw [add_data_point_ok d v hn]
    constructor
    · simp
    · intro _
      exact ⟨_, rfl⟩

theorem claim7_witness :
    ((∃ e, ((freshDetector 3 2).add_data_point PyObj.nonNumeric).2 = Except.error e)
      ↔ PyObj.nonNumeric.isNumeric = false)
    ∧ (PyObj.nonNumeric.isNumeric = true →
        ∃ b, ((freshDetector 3 2).add_data_point PyObj.nonNumeric).2 = Except.ok b) :=
  claim7_invalid_input_iff_not_numeric (freshDetector 3 2) PyObj.nonNumeric

/-- Claim C8 is false of the code (code bug): the runner is NOT
fault-tolerant.  On the stream `[1, non-numeric, 2]` with a fresh
detector, the `ValueError` raised by `add_data_point` for the non-numeric
item at index 1 is caught (lines 139-143), but the report f-string then
applies the `.2f` float format to the raw value outside the `try`
(line 149), which raises and escapes `update`: index 0 is the only frame
ever reported, index 1 is reported nowhere (not even as
`is_anomaly = false`), index 2 is never processed, and the run aborts
instead of continuing. -/
theorem claim8_report_format_error_aborts :
    runReport (freshDetector 3 2) 0 [numInput 1, PyObj.nonNumeric, numInput 2]
      = (⟨PyVal.fin 3, 2, [PyVal.fin 1], 0⟩,
          [(0, numInput 1, false)],
          Except.error "Unknown format code f for object of type str") := rfl

/-- Claim C9: every detector operation preserves the window invariant
`len(window) ≤ window_size`; `window_size` itself never changes; once the
window is full it stays exactly full; and when a push happens on a full
window the oldest element is evicted first (strict FIFO). -/
theorem claim9_window_invariants (d : AnomalyDetector) (v : PyObj) :
    (d.add_data_point v).1.window_size = d.window_size
    ∧ (d.data_window.length ≤ d.window_size →
        (d.add_data_point v).1.data_window.length ≤ d.window_size)
    ∧ (d.data_window.length = d.window_size →
        (d.add_data_point v).1.data_window.length = d.window_size)
    ∧ (v.isNumeric = true → 0 < d.window_size →
        d.data_window.length = d.window_size →
        (d.add_data_point v).1.data_window = d.data_window.drop 1 ++ [v.toPyVal]) := by
  obtain ⟨hws, -, hwin⟩ := add_data_point_window d v
  cases hn : v.isNumeric
  · rw [hn] at hwin
    rw [if_neg (by simp)] at hwin
    refine ⟨hws, ?_, ?_, ?_⟩
    · intro h
      rw [hwin]
      exact h
    · intro h
      rw [hwin]
      exact h
    · intro h
      exact absurd h (by simp [hn])
  · rw [hn] at hwin
    rw [if_pos rfl] at hwin
    refine ⟨hws, ?_, ?_, ?_⟩
    · intro h
      rw [hwin, dequePush_length]
      omega
    · intro h
      rw [hwin, dequePush_length]
      omega
    · intro _ hpos hfull
      rw [hwin]
      unfold dequePush
      rw [if_pos (by simp; omega)]
      have hlen : (d.data_window ++ [v.toPyVal]).length - d.window_size = 1 := by
        simp
        omega
      rw [hlen, List.drop_append_of_le_length (by omega)]

theorem claim9_witness :
    ((⟨PyVal.fin 1, 2, [PyVal.fin 5, PyVal.fin 6], 7⟩ : AnomalyDetector).add_data_point
        (numInput 9)).1.window_size = 2
    ∧ ((⟨PyVal.fin 1, 2, [PyVal.fin 5, PyVal.fin 6], 7⟩ : AnomalyDetector).add_data_point
        (numInput 9)).1.data_window.length ≤ 2
    ∧ ((⟨PyVal.fin 1, 2, [PyVal.fin 5, PyVal.fin 6], 7⟩ : AnomalyDetector).add_data_point
        (numInput 9)).1.data_window.length = 2
    ∧ ((⟨PyVal.fin 1, 2, [PyVal.fin 5, PyVal.fin 6], 7⟩ : AnomalyDetector).add_data_point
        (numInput 9)).1.data_window = [PyVal.fin 6, PyVal.fin 9] :=
  ⟨(claim9_window_invariants ⟨PyVal.fin 1, 2, [PyVal.fin 5, PyVal.fin 6], 7⟩ (numInput 9)).1,
    (claim9_window_invariants ⟨PyVal.fin 1, 2, [PyVal.fin 5, PyVal.fin 6], 7⟩
      (numInput 9)).2.1 (by decide),
    (claim9_window_invariants ⟨PyVal.fin 1, 2, [PyVal.fin 5, PyVal.fin 6], 7⟩
      (numInput 9)).2.2.1 (by decide),
    (claim9_window_invariants ⟨PyVal.fin 1, 2, [PyVal.fin 5, PyVal.fin 6], 7⟩
      (numInput 9)).2.2.2 rfl (by decide) (by decide)⟩

/-- Claim C10: a call rejected by the numeric check is atomic — the
detector state is returned unchanged (the value is not appended and the
anomaly count is untouched), because the validity check precedes every
mutation. -/
theorem claim10_failed_call_state_unchanged (d : AnomalyDetector) (v : PyObj)
    (h : v.isNumeric = false) :
    d.add_data_point v = (d, Except.error "Data point must be a numeric value.") :=
  add_data_point_err d v h

theorem claim10_witness :
    PyObj.nonNumeric.isNumeric = false
    ∧ (freshDetector 3 4).add_data_point PyObj.nonNumeric
        = (freshDetector 3 4, Except.error "Data point must be a numeric value.") :=
  ⟨rfl, claim10_failed_call_state_unchanged (freshDetector 3 4) PyObj.nonNumeric rfl⟩
